import Mathlib

/-!
Verification of the MD-Demo retail-analytics pipeline (`src/main.py`,
`src/analysis.py`) against its natural-language specification.

The embedding models the pandas data frame as a list of records together
with column-presence flags.  Numeric cell values (sales, profit, quantity)
are modelled as exact rationals; a calendar timestamp is modelled as a
pair of a linear month index (year * 12 + month) and a day within the
month, ordered lexicographically, which is all the pipeline ever uses of
a date (comparison and month bucketing).
-/

/-- A calendar date, abstracted to its month index and day-in-month.
`month` is a linear index (year * 12 + month) so that consecutive calendar
months are consecutive naturals; `day` orders dates inside one month. -/
structure Date where
  month : Nat
  day : Nat
deriving DecidableEq

instance : Inhabited Date := ⟨⟨0, 0⟩⟩

/-- Lexicographic `≤` on dates, as the boolean the pandas comparison
(`Series.between`, inclusive on both ends) evaluates per row. -/
def dateLe (a b : Date) : Bool :=
  decide (a.month < b.month) || (decide (a.month = b.month) && decide (a.day ≤ b.day))

/-- Surrounding-whitespace strip, the semantics of the pandas
`.str.strip()` call on a text cell: drop leading and trailing whitespace
characters. -/
def strip (s : String) : String :=
  ⟨((s.data.dropWhile Char.isWhitespace).reverse.dropWhile Char.isWhitespace).reverse⟩

/-- One raw CSV row.  `order_date` is the outcome of
`pd.to_datetime(..., errors="coerce")` on the raw date cell: `none` models
a cell the generic date parser rejects (`NaT`).  Text cells carry their
raw (possibly padded) text; numeric cells are exact rationals. -/
structure RawRow where
  order_date : Option Date
  sales : Rat
  profit : Rat
  quantity : Rat
  region : String
  product_name : String
  order_id : String
deriving DecidableEq

/-- Column-presence flags of the parsed CSV, after the header
normalisation of `main.py` line 57 (strip, spaces to underscores,
lowercase).  Only the columns the pipeline branches on are tracked. -/
structure CsvFile where
  hasOrderDate : Bool
  hasSales : Bool
  hasProfit : Bool
  hasQuantity : Bool
  hasRegion : Bool
  hasOrderId : Bool
  rows : List RawRow
deriving DecidableEq

/-- The state of the source path handed to `load_and_clean_data`:
the path may be absent (`Path.exists()` false), present but unreadable
by `pd.read_csv` (which then raises), or a parsed tabular file. -/
inductive SourceFile where
  | missing
  | unreadable
  | csv (f : CsvFile)

/-- Unhandled Python exceptions escaping `load_and_clean_data`. -/
inductive LoadErr where
  /-- `pd.read_csv` raised on an existing but unreadable path (line 55). -/
  | readError
  /-- `df.dropna(subset=["order_date"])` raised `KeyError` because no
  order-date column survived normalisation (line 74). -/
  | keyError
deriving DecidableEq

/-- One cleaned record (a row of the data frame `load_and_clean_data`
returns).  `order_date` keeps the parse outcome so that the cleaning
invariant (no `NaT` survives the final `dropna`) is a provable property
rather than a typing artifact.  The derived columns are `none` when the
source columns needed to build them are absent (lines 62 and 66 guard on
column sets, not on values). -/
structure CleanRow where
  order_date : Option Date
  sales : Rat
  profit : Rat
  quantity : Rat
  region : String
  product_name : String
  order_id : String
  unit_price : Option Rat
  profit_margin : Option Rat
deriving DecidableEq

/-- Per-row cleaning, `main.py` lines 59-72: the date column is parsed
(modelled by `RawRow.order_date` already holding the parse outcome), the
two derived columns are added when their source columns exist, with the
explicit zero guards of lines 64 and 68, and the categorical text columns
are stripped of surrounding whitespace (line 72; `product_name` is not in
the list of line 70 and is left untouched). -/
def cleanRow (f : CsvFile) (r : RawRow) : CleanRow :=
  ⟨ if f.hasOrderDate then r.order_date else none
  , r.sales
  , r.profit
  , r.quantity
  , if f.hasRegion then strip r.region else r.region
  , r.product_name
  , r.order_id
  , if f.hasSales && f.hasQuantity then
      some (if r.quantity ≠ 0 then r.sales / r.quantity else 0)
    else none
  , if f.hasProfit && f.hasSales then
      some (if r.sales ≠ 0 then r.profit / r.sales else 0)
    else none ⟩

/-- `load_and_clean_data` (`main.py` lines 48-74).  A missing path returns
an empty frame (lines 51-53); an unreadable existing path raises out of
`pd.read_csv` (line 55, not guarded); otherwise the rows are cleaned and
the final unconditional `df.dropna(subset=["order_date"])` (line 74)
either raises `KeyError` when the order-date column is absent or drops
exactly the rows whose date failed to parse. -/
def load_and_clean_data : SourceFile → Except LoadErr (List CleanRow)
  | .missing => .ok []
  | .unreadable => .error .readError
  | .csv f =>
      if f.hasOrderDate then
        .ok (((f.rows.map (cleanRow f)).filter (fun r => r.order_date.isSome)))
      else
        .error .keyError

/-- Sum of the `sales` column of a frame. -/
def sumSales (rows : List CleanRow) : Rat := (rows.map CleanRow.sales).sum

/-- Sum of the `profit` column of a frame. -/
def sumProfit (rows : List CleanRow) : Rat := (rows.map CleanRow.profit).sum

/-- The five KPI scalars (`main.py` lines 93-97 display exactly these). -/
structure Kpis where
  total_sales : Rat
  total_profit : Rat
  orders : Nat
  avg_order_value : Rat
  profit_margin : Rat
deriving DecidableEq

/-- The KPI block, `main.py` lines 85-89 (identically `analysis.py` lines
16-20): column sums, the order count as `nunique` of `order_id` when that
column exists and the row count otherwise, and the two ratio KPIs.  The
two divisions are exact rational division here; in the source they are
unguarded numpy float divisions (see the notes on claim C9). -/
def kpis (hasOrderId : Bool) (rows : List CleanRow) : Kpis :=
  let ts := sumSales rows
  let tp := sumProfit rows
  let os := if hasOrderId then ((rows.map CleanRow.order_id).dedup).length else rows.length
  ⟨ts, tp, os, ts / (os : Rat), tp / ts⟩

/-- The date a cleaned record carries; on the frames the dashboard works
with every record's parse outcome is `some` (the cleaning invariant), so
the default is never read. -/
def dateOf (r : CleanRow) : Date := r.order_date.getD default

/-- Month bucket of a cleaned record. -/
def monthOf (r : CleanRow) : Nat := (dateOf r).month

/-- The row mask of `main.py` lines 109-111: the date must lie in the
inclusive range, and the region conjunct is added only when the selected
list is non-empty (`if selected_regions:` on a list tests non-emptiness). -/
def mask (lo hi : Date) (sel : List String) (r : CleanRow) : Bool :=
  let base := dateLe lo (dateOf r) && dateLe (dateOf r) hi
  if sel.isEmpty then base else base && sel.contains r.region

/-- `filtered_df = df.loc[mask]` (`main.py` line 113). -/
def filtered_df (rows : List CleanRow) (lo hi : Date) (sel : List String) : List CleanRow :=
  rows.filter (mask lo hi sel)

/-- Modelled from the spec: the mask of a filter with "no region filter
at all" — only the inclusive date-range test.  Comparison target for the
empty-selection convention of claim C2. -/
def dateMask (lo hi : Date) (r : CleanRow) : Bool :=
  dateLe lo (dateOf r) && dateLe (dateOf r) hi

/-- Earliest month bucket of a frame (0 on the empty frame, unused). -/
def minMonth : List CleanRow → Nat
  | [] => 0
  | r :: rs => (rs.map monthOf).foldl min (monthOf r)

/-- Latest month bucket of a frame (0 on the empty frame, unused). -/
def maxMonth : List CleanRow → Nat
  | [] => 0
  | r :: rs => (rs.map monthOf).foldl max (monthOf r)

/-- `sales_month` (`main.py` line 117):
`groupby(pd.Grouper(key="order_date", freq="M"))["sales"].sum()`.
A time `Grouper` resamples: it lays one bin on **every** calendar month
from the earliest to the latest order date of the frame, and an empty bin
sums to 0 — months without records inside the span still produce a row.
On an empty frame the result is empty.  The bin label is abstracted to
the month index (`freq="M"` labels bins with the month-end timestamp). -/
def sales_month (rows : List CleanRow) : List (Nat × Rat) :=
  if rows.isEmpty then []
  else
    (List.range' (minMonth rows) (maxMonth rows + 1 - minMonth rows)).map
      (fun m => (m, sumSales (rows.filter (fun r => monthOf r = m))))

/-- Code-point lexicographic order on character lists: the order Python
(and hence pandas) uses to compare strings.  A proper non-empty extension
is larger; otherwise the first differing code point decides. -/
def charsLt : List Char → List Char → Bool
  | [], [] => false
  | [], _ :: _ => true
  | _ :: _, [] => false
  | a :: as, b :: bs =>
      decide (a.toNat < b.toNat) || (decide (a.toNat = b.toNat) && charsLt as bs)

/-- Python string `<` on the underlying character data. -/
def strLt (a b : String) : Bool := charsLt a.data b.data

/-- Ascending insertion with respect to `strLt` (only ever used on
duplicate-free key lists, where `strLt` is a strict total order). -/
def insertKey (k : String) : List String → List String
  | [] => [k]
  | y :: ys => if strLt k y then k :: y :: ys else y :: insertKey k ys

/-- Ascending insertion sort of a key list. -/
def sortKeys : List String → List String
  | [] => []
  | k :: ks => insertKey k (sortKeys ks)

/-- Distinct values of a text column in ascending order: pandas `groupby`
with the default `sort=True` orders the distinct group keys. -/
def sortedKeys (l : List String) : List String := sortKeys l.dedup

/-- `groupby("product_name")["sales"].sum()` (`main.py` line 126): one
entry per distinct product name, keys ascending, value the summed sales
of that product's rows. -/
def productSales (rows : List CleanRow) : List (String × Rat) :=
  (sortedKeys (rows.map CleanRow.product_name)).map
    (fun k => (k, sumSales (rows.filter (fun r => r.product_name = k))))

/-- Stable descending insertion: the inserted entry goes in front of the
first entry whose value does not exceed it, so among equal values an
entry earlier in the input stays earlier in the output. -/
def insertByDesc (x : String × Rat) : List (String × Rat) → List (String × Rat)
  | [] => [x]
  | y :: ys => if y.2 ≤ x.2 then x :: y :: ys else y :: insertByDesc x ys

/-- Stable sort by descending value. -/
def sortByDesc : List (String × Rat) → List (String × Rat)
  | [] => []
  | x :: xs => insertByDesc x (sortByDesc xs)

/-- `Series.nlargest(n)` with the default `keep="first"`: the `n` largest
entries in descending value order, ties resolved in favour of the entry
occurring first in the series. -/
def nlargest (n : Nat) (l : List (String × Rat)) : List (String × Rat) :=
  (sortByDesc l).take n

/-- `top_products` (`main.py` line 126), with the literal 10 generalised
to `n` as in the spec's top-N contract. -/
def top_products (rows : List CleanRow) (n : Nat) : List (String × Rat) :=
  nlargest n (productSales rows)

/-- The number of distinct values of the product-name column. -/
def distinctCount (rows : List CleanRow) : Nat :=
  ((rows.map CleanRow.product_name).dedup).length

/-- Outcome of the forecasting step as the user observes it. -/
inductive ForecastOutcome where
  /-- `st.info("Not enough data ...")`, `main.py` line 176. -/
  | notEnoughData
  /-- `st.warning(f"Forecasting error: {e}")`, `main.py` line 178 /
  `print("Forecasting error:", e)`, `analysis.py` line 78. -/
  | failed (msg : String)
  /-- a rendered forecast series. -/
  | forecasted (vals : List Rat)
deriving DecidableEq

/-- The external fitting routine
(`ExponentialSmoothing(ts, trend="add", seasonal=None).fit(optimized=True).forecast(h)`),
abstracted as a function from the historical values and the horizon to
either the predicted values or the message of a raised exception. -/
def FitProc : Type := List Rat → Nat → Except String (List Rat)

/-- The forecast block of `main.py` lines 163-178: inside one broad
`try/except`, a series of at least 3 points is fitted and forecast (a
raised fitting error becomes the warning status), and a shorter series
skips fitting and reports the "not enough data" status. -/
def forecast_main (series : List (Nat × Rat)) (h : Nat) (fit : FitProc) : ForecastOutcome :=
  if 3 ≤ series.length then
    match fit (series.map Prod.snd) h with
    | .ok vs => .forecasted vs
    | .error e => .failed e
  else .notEnoughData

/-- The forecast block of `analysis.py` lines 62-78: the same broad
`try/except`, but with **no** minimum-length check — every series goes
straight to the fitting routine. -/
def forecast_analysis (series : List (Nat × Rat)) (h : Nat) (fit : FitProc) : ForecastOutcome :=
  match fit (series.map Prod.snd) h with
  | .ok vs => .forecasted vs
  | .error e => .failed e

/-- What one pass of the dashboard body computes and renders
(`main.py` lines 84-126) for one state of the sidebar filter: the KPI
block over the **full** cleaned frame `df` (lines 85-89, which run before
the filter is even built), the filtered frame (line 113), the monthly
trend over the filtered frame (line 117) and the top-10 products over the
filtered frame (line 126).  The forecast (lines 160-178) is
`forecast_main` applied to `salesMonthView` and is kept separate because
it also needs the abstract fitting routine.  A filter change reruns the
script, i.e. evaluates `dashboard` at the new `lo hi sel`. -/
structure DashboardView where
  kpiSet : Kpis
  filtered : List CleanRow
  salesMonthView : List (Nat × Rat)
  topProductsView : List (String × Rat)
deriving DecidableEq

def dashboard (hasOrderId : Bool) (df : List CleanRow) (lo hi : Date) (sel : List String) :
    DashboardView :=
  ⟨ kpis hasOrderId df
  , filtered_df df lo hi sel
  , sales_month (filtered_df df lo hi sel)
  , top_products (filtered_df df lo hi sel) 10 ⟩

/-- How a run of `main.py` ends, when the loader itself does not raise. -/
inductive MainOutcome where
  /-- `st.stop()` at line 81: the loaded frame was empty. -/
  | halted
  /-- `st.error` + `st.stop()` at lines 102-103: no region column. -/
  | missingColumns
  /-- the dashboard rendered. -/
  | rendered (v : DashboardView)

/-- Whether the normalised frame has a region column. -/
def hasRegionCol : SourceFile → Bool
  | .csv f => f.hasRegion
  | _ => false

/-- Whether the normalised frame has an order-id column. -/
def hasOrderIdCol : SourceFile → Bool
  | .csv f => f.hasOrderId
  | _ => false

/-- The top-level control flow of `main.py` (lines 77-113): load, halt on
an empty frame (lines 80-81), halt when the region column is missing
(lines 101-103; the order-date column is necessarily present whenever the
loader returned a non-empty frame), otherwise render the dashboard for
the active filter.  A loader exception propagates out. -/
def runMain (src : SourceFile) (lo hi : Date) (sel : List String) :
    Except LoadErr MainOutcome :=
  match load_and_clean_data src with
  | .error e => .error e
  | .ok df =>
      if df.isEmpty then .ok .halted
      else if hasRegionCol src then
        .ok (.rendered (dashboard (hasOrderIdCol src) df lo hi sel))
      else .ok .missingColumns

/-! ### Claim C2: filtering semantics -/

/-- C2.  A record is in the filtered subset iff it is in the cleaned
frame, its order date lies in the inclusive date range, and either no
region is selected or its region is among the selected ones; moreover the
filtered subset for the empty selection coincides with the subset of a
filter with no region test at all, and the boolean date test is the
inclusive lexicographic order on (month, day). -/
theorem filtered_df_mem_iff (rows : List CleanRow) (lo hi : Date) (sel : List String) :
    (∀ r : CleanRow, r ∈ filtered_df rows lo hi sel ↔
      r ∈ rows ∧ (dateLe lo (dateOf r) = true ∧ dateLe (dateOf r) hi = true) ∧
        (sel = [] ∨ r.region ∈ sel)) ∧
    filtered_df rows lo hi [] = rows.filter (dateMask lo hi) ∧
    (∀ a b : Date, dateLe a b = true ↔
      (a.month < b.month ∨ (a.month = b.month ∧ a.day ≤ b.day))) := by
  refine ⟨fun r => ?_, rfl, fun a b => ?_⟩
  · rw [filtered_df, List.mem_filter, mask]
    cases sel with
    | nil => simp
    | cons s ss => simp [and_assoc]
  · simp [dateLe]

theorem filtered_df_mem_iff_witness :
    (⟨some ⟨0, 5⟩, 100, 20, 2, "East", "Chair", "O1", some 50, some 0⟩ : CleanRow) ∈
      filtered_df
        [⟨some ⟨0, 5⟩, 100, 20, 2, "East", "Chair", "O1", some 50, some 0⟩,
         ⟨some ⟨1, 20⟩, 50, 10, 1, "West", "Desk", "O2", some 50, some 0⟩]
        ⟨0, 1⟩ ⟨1, 28⟩ ["East"] :=
  ((filtered_df_mem_iff _ ⟨0, 1⟩ ⟨1, 28⟩ ["East"]).1 _).mpr
    ⟨by decide, ⟨by decide, by decide⟩, by decide⟩

/-! ### Claim C4: the cleaning invariant on order dates -/

/-- C4.  Whenever the loader returns a cleaned record set (it may instead
raise, or return the empty frame for a missing path), every record in it
carries a successfully parsed, non-null order date: the rows whose date
failed to parse were dropped by the final `dropna`. -/
theorem load_and_clean_data_dates_parsed (src : SourceFile) (rows : List CleanRow)
    (h : load_and_clean_data src = .ok rows) :
    ∀ r ∈ rows, r.order_date.isSome = true := by
  cases src with
  | missing =>
      simp only [load_and_clean_data] at h
      cases h
      intro r hr
      cases hr
  | unreadable =>
      simp [load_and_clean_data] at h
  | csv f =>
      simp only [load_and_clean_data] at h
      by_cases hod : f.hasOrderDate
      · rw [if_pos hod] at h
        cases h
        intro r hr
        exact (List.mem_filter.mp hr).2
      · rw [if_neg hod] at h
        cases h

theorem load_and_clean_data_dates_parsed_witness :
    (⟨some ⟨3, 2⟩, 1, 1, 1, "x", "p", "i", some 1, some 1⟩ : CleanRow).order_date.isSome
      = true :=
  load_and_clean_data_dates_parsed
    (.csv ⟨true, true, true, true, true, true,
      [⟨none, 1, 1, 1, "x", "p", "i"⟩, ⟨some ⟨3, 2⟩, 1, 1, 1, "x", "p", "i"⟩]⟩)
    [⟨some ⟨3, 2⟩, 1, 1, 1, "x", "p", "i", some 1, some 1⟩]
    (by norm_num [load_and_clean_data, cleanRow, List.filter]; decide)
    _ (by decide)

/-! ### Claim C5: zero-guarded derived fields -/

/-- C5.  On a file carrying the sales, quantity and profit columns, the
per-row derived fields follow the guarded formulas: unit price is
sales ÷ quantity unless the quantity is 0, in which case it is 0, and the
row profit margin is profit ÷ sales unless the sales value is 0, in which
case it is 0.  Both are total computations — the zero cases return 0
instead of dividing. -/
theorem cleanRow_derived_guarded (f : CsvFile) (r : RawRow)
    (hs : f.hasSales = true) (hq : f.hasQuantity = true) (hp : f.hasProfit = true) :
    (cleanRow f r).unit_price = some (if r.quantity = 0 then 0 else r.sales / r.quantity) ∧
    (cleanRow f r).profit_margin = some (if r.sales = 0 then 0 else r.profit / r.sales) := by
  simp only [cleanRow, hs, hq, hp, Bool.and_self, if_true, ite_not, Bool.true_and]
  exact ⟨trivial, trivial⟩

theorem cleanRow_derived_guarded_witness :
    (cleanRow ⟨true, true, true, true, true, true, []⟩
        ⟨some ⟨0, 1⟩, 0, 7, 0, "East", "Chair", "O1"⟩).unit_price = some 0 ∧
    (cleanRow ⟨true, true, true, true, true, true, []⟩
        ⟨some ⟨0, 1⟩, 0, 7, 0, "East", "Chair", "O1"⟩).profit_margin = some 0 := by
  have h := cleanRow_derived_guarded ⟨true, true, true, true, true, true, []⟩
    ⟨some ⟨0, 1⟩, 0, 7, 0, "East", "Chair", "O1"⟩ rfl rfl rfl
  simpa using h

/-! ### Claim C6: missing versus unreadable source -/

/-- Counterexample to C6 as stated: an existing but unreadable source
path does not produce an empty result — `pd.read_csv` raises out of the
loader, which only guards `Path.exists()`. -/
theorem load_and_clean_data_unreadable_raises :
    load_and_clean_data .unreadable = .error .readError := rfl

/-- C6 amended.  For a source path that does not exist the loader returns
the empty frame and the caller halts at the `df.empty` guard without
crashing; an existing but unreadable path instead raises out of
`pd.read_csv`, which nothing catches. -/
theorem missing_source_halts (lo hi : Date) (sel : List String) :
    load_and_clean_data .missing = .ok [] ∧
    runMain .missing lo hi sel = .ok .halted ∧
    load_and_clean_data .unreadable = .error .readError :=
  ⟨rfl, rfl, rfl⟩

/-! ### Claim C7: forecast outcome classification -/

/-- Counterexample to C7 as stated: in `analysis.py` there is no
minimum-length threshold, so a 2-point monthly series is never reported
as "not enough data" — it is handed to the fitting routine, and the run
ends in "forecast failed" (when the fit raises) or in a forecast (when it
does not), demonstrated here for both possible behaviours of the
external fit. -/
theorem forecast_analysis_short_series_not_flagged :
    forecast_analysis [(0, 100), (1, 110)] 3 (fun _ _ => .error "LinAlgError") =
      .failed "LinAlgError" ∧
    forecast_analysis [(0, 100), (1, 110)] 3 (fun _ _ => .ok [120, 130, 140]) =
      .forecasted [120, 130, 140] :=
  ⟨rfl, rfl⟩

/-- C7 amended.  In the dashboard (`main.py`) the outcome is classified
exactly as the claim states: fewer than 3 points skips fitting and
reports "not enough data", a raised fitting error is caught and reported
as a forecast failure, a successful fit yields the forecast, and the
total match means no fault escapes.  In the batch script (`analysis.py`)
the same holds except that there is no length threshold at all: the
outcome is decided by the fitting routine alone and is never the
"not enough data" status. -/
theorem forecast_outcome_classified (series : List (Nat × Rat)) (h : Nat) (fit : FitProc) :
    (series.length < 3 → forecast_main series h fit = .notEnoughData) ∧
    (∀ e, 3 ≤ series.length → fit (series.map Prod.snd) h = .error e →
      forecast_main series h fit = .failed e) ∧
    (∀ vs, 3 ≤ series.length → fit (series.map Prod.snd) h = .ok vs →
      forecast_main series h fit = .forecasted vs) ∧
    (∀ e, fit (series.map Prod.snd) h = .error e →
      forecast_analysis series h fit = .failed e) ∧
    (∀ vs, fit (series.map Prod.snd) h = .ok vs →
      forecast_analysis series h fit = .forecasted vs) ∧
    forecast_analysis series h fit ≠ .notEnoughData := by
  refine ⟨fun hlen => ?_, fun e hlen hf => ?_, fun vs hlen hf => ?_,
    fun e hf => ?_, fun vs hf => ?_, ?_⟩
  · rw [forecast_main, if_neg (by omega)]
  · rw [forecast_main, if_pos hlen, hf]
  · rw [forecast_main, if_pos hlen, hf]
  · rw [forecast_analysis, hf]
  · rw [forecast_analysis, hf]
  · rw [forecast_analysis]
    cases fit (series.map Prod.snd) h <;> simp

theorem forecast_outcome_classified_witness :
    forecast_main [(0, 100), (1, 110)] 3 (fun _ _ => .ok [120]) = .notEnoughData :=
  (forecast_outcome_classified [(0, 100), (1, 110)] 3 _).1 (by decide)

/-! ### Claim C10: missing order-date column -/

/-- C10.  On a readable, parseable file whose (normalised) columns do not
include an order date, the loader raises: the final
`df.dropna(subset=["order_date"])` runs unconditionally and its subset
column does not exist.  No cleaned set and no empty result is returned. -/
theorem load_and_clean_data_no_date_column_raises (f : CsvFile)
    (h : f.hasOrderDate = false) :
    load_and_clean_data (.csv f) = .error .keyError := by
  simp [load_and_clean_data, h]

theorem load_and_clean_data_no_date_column_raises_witness :
    load_and_clean_data
      (.csv ⟨false, true, true, true, true, true, [⟨none, 1, 1, 1, "x", "p", "i"⟩]⟩) =
      .error .keyError :=
  load_and_clean_data_no_date_column_raises _ rfl

/-! ### Claim C1: which frame the KPIs are computed over -/

/-- Counterexample to C1 as stated: the KPI block of `main.py` runs on
the full cleaned frame `df` before the sidebar filter is even built, so
on a frame with an East row (sales 100) and a West row (sales 50) under
an East-only region selection the displayed KPI set is not the KPI set of
the filtered subset. -/
theorem dashboard_kpis_not_over_filtered :
    (dashboard true
        [⟨some ⟨0, 5⟩, 100, 20, 2, "East", "Chair", "O1", some 50, some 0⟩,
         ⟨some ⟨1, 20⟩, 50, 10, 1, "West", "Desk", "O2", some 50, some 0⟩]
        ⟨0, 1⟩ ⟨1, 28⟩ ["East"]).kpiSet ≠
      kpis true
        ((dashboard true
          [⟨some ⟨0, 5⟩, 100, 20, 2, "East", "Chair", "O1", some 50, some 0⟩,
           ⟨some ⟨1, 20⟩, 50, 10, 1, "West", "Desk", "O2", some 50, some 0⟩]
          ⟨0, 1⟩ ⟨1, 28⟩ ["East"]).filtered) := by
  intro hEq
  have hf : (dashboard true
      [⟨some ⟨0, 5⟩, 100, 20, 2, "East", "Chair", "O1", some 50, some 0⟩,
       ⟨some ⟨1, 20⟩, 50, 10, 1, "West", "Desk", "O2", some 50, some 0⟩]
      ⟨0, 1⟩ ⟨1, 28⟩ ["East"]).filtered =
      [⟨some ⟨0, 5⟩, 100, 20, 2, "East", "Chair", "O1", some 50, some 0⟩] := by decide
  rw [hf] at hEq
  have hts := congrArg Kpis.total_sales hEq
  have h1 : (dashboard true
      [⟨some ⟨0, 5⟩, 100, 20, 2, "East", "Chair", "O1", some 50, some 0⟩,
       ⟨some ⟨1, 20⟩, 50, 10, 1, "West", "Desk", "O2", some 50, some 0⟩]
      ⟨0, 1⟩ ⟨1, 28⟩ ["East"]).kpiSet.total_sales = 150 := by
    norm_num [dashboard, kpis, sumSales]
  have h2 : (kpis true
      [(⟨some ⟨0, 5⟩, 100, 20, 2, "East", "Chair", "O1", some 50, some 0⟩ : CleanRow)]).total_sales
      = 100 := by
    norm_num [kpis, sumSales]
  rw [h1, h2] at hts
  norm_num at hts

/-- C1 amended.  One dashboard pass computes the five KPI scalars over
the full cleaned frame, before and independently of the active filter —
they are identical across any two filter states — while the chart
aggregates (filtered subset, monthly trend, top products) are computed
over the filtered subset and change with the filter. -/
theorem dashboard_kpis_full_frame (hOid : Bool) (df : List CleanRow)
    (lo hi lo' hi' : Date) (sel sel' : List String) :
    (dashboard hOid df lo hi sel).kpiSet = kpis hOid df ∧
    (dashboard hOid df lo hi sel).kpiSet = (dashboard hOid df lo' hi' sel').kpiSet ∧
    (dashboard hOid df lo hi sel).filtered = filtered_df df lo hi sel ∧
    (dashboard hOid df lo hi sel).salesMonthView = sales_month (filtered_df df lo hi sel) ∧
    (dashboard hOid df lo hi sel).topProductsView =
      top_products (filtered_df df lo hi sel) 10 :=
  ⟨rfl, rfl, rfl, rfl, rfl⟩

/-! ### Claim C3: the monthly sales aggregate -/

theorem foldl_min_le (l : List Nat) :
    ∀ a : Nat, l.foldl min a ≤ a ∧ ∀ x ∈ l, l.foldl min a ≤ x := by
  induction l with
  | nil => intro a; exact ⟨le_refl a, by simp⟩
  | cons x xs ih =>
      intro a
      rw [List.foldl_cons]
      refine ⟨le_trans (ih (min a x)).1 (min_le_left _ _), fun y hy => ?_⟩
      rcases List.mem_cons.mp hy with rfl | hy'
      · exact le_trans (ih (min a y)).1 (min_le_right _ _)
      · exact (ih (min a x)).2 y hy'

theorem le_foldl_max (l : List Nat) :
    ∀ a : Nat, a ≤ l.foldl max a ∧ ∀ x ∈ l, x ≤ l.foldl max a := by
  induction l with
  | nil => intro a; exact ⟨le_refl a, by simp⟩
  | cons x xs ih =>
      intro a
      rw [List.foldl_cons]
      refine ⟨le_trans (le_max_left _ _) (ih (max a x)).1, fun y hy => ?_⟩
      rcases List.mem_cons.mp hy with rfl | hy'
      · exact le_trans (le_max_right _ _) (ih (max a y)).1
      · exact (ih (max a x)).2 y hy'

theorem minMonth_le_of_mem (rows : List CleanRow) :
    ∀ r ∈ rows, minMonth rows ≤ monthOf r := by
  cases rows with
  | nil => simp
  | cons r0 rs =>
      intro r hr
      rcases List.mem_cons.mp hr with rfl | hr'
      · exact (foldl_min_le (rs.map monthOf) (monthOf r)).1
      · exact (foldl_min_le (rs.map monthOf) (monthOf r0)).2 (monthOf r)
          (List.mem_map_of_mem monthOf hr')

theorem le_maxMonth_of_mem (rows : List CleanRow) :
    ∀ r ∈ rows, monthOf r ≤ maxMonth rows := by
  cases rows with
  | nil => simp
  | cons r0 rs =>
      intro r hr
      rcases List.mem_cons.mp hr with rfl | hr'
      · exact (le_foldl_max (rs.map monthOf) (monthOf r)).1
      · exact (le_foldl_max (rs.map monthOf) (monthOf r0)).2 (monthOf r)
          (List.mem_map_of_mem monthOf hr')

theorem sales_month_keys (rows : List CleanRow) (h : rows ≠ []) :
    (sales_month rows).map Prod.fst =
      List.range' (minMonth rows) (maxMonth rows + 1 - minMonth rows) := by
  rw [sales_month, if_neg (by simpa using h), List.map_map]
  show List.map id (List.range' (minMonth rows) (maxMonth rows + 1 - minMonth rows)) = _
  rw [List.map_id]

/-- Counterexample to C3 as stated: on a filtered frame whose records
fall in months 0 and 2 only, the monthly aggregate of `main.py`
(`groupby` over a monthly time `Grouper`, i.e. a resample) also contains
the empty calendar month 1, with summed sales 0 — months with zero
matching records inside the span do appear in the output sequence. -/
theorem sales_month_gap_month_present :
    ([⟨some ⟨0, 5⟩, 100, 20, 2, "East", "Chair", "O1", some 50, some 0⟩,
      ⟨some ⟨2, 10⟩, 200, 40, 4, "East", "Desk", "O2", some 50, some 0⟩] :
        List CleanRow).map monthOf = [0, 2] ∧
    sales_month
      [⟨some ⟨0, 5⟩, 100, 20, 2, "East", "Chair", "O1", some 50, some 0⟩,
       ⟨some ⟨2, 10⟩, 200, 40, 4, "East", "Desk", "O2", some 50, some 0⟩] =
      [(0, 100), (1, 0), (2, 200)] := by
  refine ⟨by decide, ?_⟩
  norm_num [sales_month, minMonth, maxMonth, monthOf, dateOf, sumSales, List.filter,
    List.range']

/-- C3 amended.  The monthly sales aggregate of the filtered frame is
chronologically ordered with strictly increasing month keys, contains an
entry for every month in which a filtered record falls, sums the sales of
exactly the records of each entry's month — and its key set is the full
inclusive span of calendar months from the earliest to the latest record,
so months with zero matching records inside that span also appear (with
sum 0), rather than being absent as the claim states. -/
theorem sales_month_spec (rows : List CleanRow) :
    ((sales_month rows).map Prod.fst).Pairwise (· < ·) ∧
    (∀ r ∈ rows, monthOf r ∈ (sales_month rows).map Prod.fst) ∧
    (∀ p ∈ sales_month rows, p.2 = sumSales (rows.filter (fun r => monthOf r = p.1))) ∧
    (∀ m : Nat, m ∈ (sales_month rows).map Prod.fst ↔
      rows ≠ [] ∧ minMonth rows ≤ m ∧ m ≤ maxMonth rows) := by
  by_cases h : rows = []
  · subst h
    exact ⟨by simp [sales_month], by simp, by simp [sales_month], by simp [sales_month]⟩
  · have hkeys := sales_month_keys rows h
    have hminmax : minMonth rows ≤ maxMonth rows := by
      cases rows with
      | nil => exact absurd rfl h
      | cons r0 rs =>
          exact le_trans (minMonth_le_of_mem _ r0 (List.mem_cons_self _ _))
            (le_maxMonth_of_mem _ r0 (List.mem_cons_self _ _))
    refine ⟨?_, ?_, ?_, ?_⟩
    · rw [hkeys]; exact List.pairwise_lt_range' _ _
    · intro r hr
      rw [hkeys, List.mem_range'_1]
      have h1 := minMonth_le_of_mem rows r hr
      have h2 := le_maxMonth_of_mem rows r hr
      omega
    · intro p hp
      rw [sales_month, if_neg (by simpa using h)] at hp
      rcases List.mem_map.mp hp with ⟨m, _, rfl⟩
      rfl
    · intro m
      rw [hkeys, List.mem_range'_1]
      constructor
      · rintro ⟨h1, h2⟩; exact ⟨h, h1, by omega⟩
      · rintro ⟨-, h1, h2⟩; exact ⟨h1, by omega⟩

theorem sales_month_spec_witness :
    (0 : Nat) ∈ (sales_month
      [(⟨some ⟨0, 5⟩, 100, 20, 2, "East", "Chair", "O1", some 50, some 0⟩ : CleanRow)]).map
        Prod.fst :=
  ((sales_month_spec _).2.2.2 0).mpr ⟨by decide, by decide, by decide⟩

/-! ### Claim C8: top-N products by summed sales -/

theorem mem_insertByDesc (x z : String × Rat) (l : List (String × Rat)) :
    z ∈ insertByDesc x l ↔ z = x ∨ z ∈ l := by
  induction l with
  | nil => simp [insertByDesc]
  | cons y ys ih =>
      rw [insertByDesc]
      split
      · simp [List.mem_cons, or_comm, or_assoc, or_left_comm]
      · rw [List.mem_cons, ih, List.mem_cons]
        tauto

theorem length_insertByDesc (x : String × Rat) (l : List (String × Rat)) :
    (insertByDesc x l).length = l.length + 1 := by
  induction l with
  | nil => rfl
  | cons y ys ih =>
      rw [insertByDesc]
      split
      · rfl
      · rw [List.length_cons, ih, List.length_cons]

theorem length_sortByDesc (l : List (String × Rat)) :
    (sortByDesc l).length = l.length := by
  induction l with
  | nil => rfl
  | cons x xs ih => rw [sortByDesc, length_insertByDesc, ih, List.length_cons]

theorem pairwise_insertByDesc (x : String × Rat) (l : List (String × Rat))
    (hl : l.Pairwise (fun a b => b.2 ≤ a.2)) :
    (insertByDesc x l).Pairwise (fun a b => b.2 ≤ a.2) := by
  induction l with
  | nil => simp [insertByDesc]
  | cons y ys ih =>
      rcases List.pairwise_cons.mp hl with ⟨hy, hys⟩
      rw [insertByDesc]
      split
      · rename_i hcond
        refine List.pairwise_cons.mpr ⟨?_, hl⟩
        intro z hz
        rcases List.mem_cons.mp hz with rfl | hz'
        · exact hcond
        · exact le_trans (hy z hz') hcond
      · rename_i hcond
        rw [not_le] at hcond
        refine List.pairwise_cons.mpr ⟨?_, ih hys⟩
        intro z hz
        rcases (mem_insertByDesc x z ys).mp hz with rfl | hz'
        · exact le_of_lt hcond
        · exact hy z hz'

theorem pairwise_sortByDesc (l : List (String × Rat)) :
    (sortByDesc l).Pairwise (fun a b => b.2 ≤ a.2) := by
  induction l with
  | nil => simp [sortByDesc]
  | cons x xs ih => exact pairwise_insertByDesc x _ ih

theorem filter_val_insertByDesc (x : String × Rat) (l : List (String × Rat)) (v : Rat) :
    (insertByDesc x l).filter (fun p => decide (p.2 = v)) =
      (x :: l).filter (fun p => decide (p.2 = v)) := by
  induction l with
  | nil => rfl
  | cons y ys ih =>
      rw [insertByDesc]
      split
      · rfl
      · rename_i hcond
        rw [not_le] at hcond
        by_cases hx : x.2 = v
        · have hyv : ¬ y.2 = v := fun hyv => absurd (hyv.trans hx.symm) (ne_of_gt hcond)
          simp [List.filter_cons, hx, hyv, ih]
        · simp [List.filter_cons, hx, ih]

theorem filter_val_sortByDesc (l : List (String × Rat)) (v : Rat) :
    (sortByDesc l).filter (fun p => decide (p.2 = v)) =
      l.filter (fun p => decide (p.2 = v)) := by
  induction l with
  | nil => rfl
  | cons x xs ih =>
      rw [sortByDesc, filter_val_insertByDesc]
      rw [List.filter_cons, List.filter_cons, ih]

theorem length_insertKey (k : String) (l : List String) :
    (insertKey k l).length = l.length + 1 := by
  induction l with
  | nil => rfl
  | cons y ys ih =>
      rw [insertKey]
      split
      · rfl
      · rw [List.length_cons, ih, List.length_cons]

theorem length_sortKeys (l : List String) : (sortKeys l).length = l.length := by
  induction l with
  | nil => rfl
  | cons k ks ih => rw [sortKeys, length_insertKey, ih, List.length_cons]

theorem length_productSales (rows : List CleanRow) :
    (productSales rows).length = distinctCount rows := by
  rw [productSales, List.length_map, sortedKeys, length_sortKeys, distinctCount]

/-- Counterexample to C8 as stated: ties are not broken by order of first
appearance.  On a frame whose rows carry products "B" then "A" with equal
summed sales, `groupby` (which sorts the distinct keys) followed by
`nlargest(1)` returns "A" — the alphabetically first key — although "B"
appears first in the data. -/
theorem top_products_tie_not_first_appearance :
    ([⟨some ⟨0, 5⟩, 5, 0, 1, "East", "B", "O1", some 5, some 0⟩,
      ⟨some ⟨0, 6⟩, 5, 0, 1, "East", "A", "O2", some 5, some 0⟩] :
        List CleanRow).map CleanRow.product_name = ["B", "A"] ∧
    top_products
      [⟨some ⟨0, 5⟩, 5, 0, 1, "East", "B", "O1", some 5, some 0⟩,
       ⟨some ⟨0, 6⟩, 5, 0, 1, "East", "A", "O2", some 5, some 0⟩] 1 = [("A", 5)] := by
  refine ⟨by decide, ?_⟩
  have hps : productSales
      [⟨some ⟨0, 5⟩, 5, 0, 1, "East", "B", "O1", some 5, some 0⟩,
       ⟨some ⟨0, 6⟩, 5, 0, 1, "East", "A", "O2", some 5, some 0⟩] =
      [("A", 5), ("B", 5)] := by
    rw [productSales]
    rw [show sortedKeys (([⟨some ⟨0, 5⟩, 5, 0, 1, "East", "B", "O1", some 5, some 0⟩,
      ⟨some ⟨0, 6⟩, 5, 0, 1, "East", "A", "O2", some 5, some 0⟩] :
        List CleanRow).map CleanRow.product_name) = ["A", "B"] from by decide]
    have hfA : List.filter (fun r => decide (r.product_name = "A"))
        [(⟨some ⟨0, 5⟩, 5, 0, 1, "East", "B", "O1", some 5, some 0⟩ : CleanRow),
         ⟨some ⟨0, 6⟩, 5, 0, 1, "East", "A", "O2", some 5, some 0⟩] =
        [⟨some ⟨0, 6⟩, 5, 0, 1, "East", "A", "O2", some 5, some 0⟩] := by decide
    have hfB : List.filter (fun r => decide (r.product_name = "B"))
        [(⟨some ⟨0, 5⟩, 5, 0, 1, "East", "B", "O1", some 5, some 0⟩ : CleanRow),
         ⟨some ⟨0, 6⟩, 5, 0, 1, "East", "A", "O2", some 5, some 0⟩] =
        [⟨some ⟨0, 5⟩, 5, 0, 1, "East", "B", "O1", some 5, some 0⟩] := by decide
    simp only [List.map_cons, List.map_nil, hfA, hfB]
    simp [sumSales]
  rw [top_products, nlargest, hps]
  simp [sortByDesc, insertByDesc]

/-- C8 amended.  For every frame and every N: the top-N aggregate has
exactly `min N (number of distinct products)` entries (so at most N, and
exactly N when at least N distinct products exist); its summed-sales
values are in non-increasing order; and ties are broken by the order of
the underlying aggregate series — for each sales value, the entries of
the output with that value are an in-order prefix of the entries of the
`groupby` series with that value, whose order is ascending by product
name (pandas sorts group keys), not order of first appearance in the
data. -/
theorem top_products_spec (rows : List CleanRow) (n : Nat) :
    (top_products rows n).length = min n (distinctCount rows) ∧
    (top_products rows n).Pairwise (fun a b => b.2 ≤ a.2) ∧
    (∀ v : Rat, (top_products rows n).filter (fun p => decide (p.2 = v)) <+:
      (productSales rows).filter (fun p => decide (p.2 = v))) := by
  refine ⟨?_, ?_, fun v => ?_⟩
  · rw [top_products, nlargest, List.length_take, length_sortByDesc, length_productSales]
  · exact List.Pairwise.sublist (List.take_sublist _ _) (pairwise_sortByDesc _)
  · refine ⟨((sortByDesc (productSales rows)).drop n).filter (fun p => decide (p.2 = v)), ?_⟩
    rw [top_products, nlargest, ← List.filter_append, List.take_append_drop,
      filter_val_sortByDesc]

theorem top_products_spec_witness :
    (top_products
      [⟨some ⟨0, 5⟩, 5, 0, 1, "East", "B", "O1", some 5, some 0⟩,
       ⟨some ⟨0, 6⟩, 5, 0, 1, "East", "A", "O2", some 5, some 0⟩] 1).length = 1 :=
  (top_products_spec
    [⟨some ⟨0, 5⟩, 5, 0, 1, "East", "B", "O1", some 5, some 0⟩,
     ⟨some ⟨0, 6⟩, 5, 0, 1, "East", "A", "O2", some 5, some 0⟩] 1).1.trans (by decide)

